import Mathlib

/-!
Verification of the tritone document-signing core: data model, geometry
engine, document state machine endpoints, and PDF stamping transform,
embedded over exact rational arithmetic.
-/

namespace Tritone

/-! ### Data model (src/src/lib/types.ts) -/

/-- `DocumentStatus` from src/src/lib/types.ts. -/
inductive DocumentStatus
  | empty
  | uploaded
  | converted
  | signed
  | failed
deriving DecidableEq, Repr

/-- `SignatureField` from src/src/lib/types.ts: a 1-indexed page, the
normalized center `(xN, yN)` and the normalized size `(wN, hN)`.
The `page: number` field always holds an integer after validation, so it
is embedded as `ℤ`. -/
structure SignatureField where
  page : ℤ
  xN : ℚ
  yN : ℚ
  wN : ℚ
  hN : ℚ
deriving DecidableEq, Repr

/-- `DocumentMeta` from src/src/lib/types.ts. -/
structure DocumentMeta where
  status : DocumentStatus
  createdAt : Option String
  originalDocxPath : Option String
  previewPdfPath : Option String
  signedPdfPath : Option String
  signatureField : Option SignatureField
  lastError : Option String
deriving DecidableEq, Repr

/-- `DEFAULT_META` from src/src/lib/types.ts. -/
def DEFAULT_META : DocumentMeta :=
  { status := .empty
    createdAt := none
    originalDocxPath := none
    previewPdfPath := none
    signedPdfPath := none
    signatureField := none
    lastError := none }

/-! ### Geometry engine
(`handleMouseMove` / `handlePreviewClick` in
src/src/components/DocumentPreview.tsx and the overlay placement style in
src/src/components/SignatureField.tsx) -/

/-- The four resize corner tags of `handleMouseMove`. -/
inductive ResizeHandle
  | topLeft
  | topRight
  | bottomLeft
  | bottomRight
deriving DecidableEq, Repr

/-- `const minSize = 0.05` in `handleMouseMove`. -/
def minSize : ℚ := 0.05

/-- The `switch (resizeHandle)` block of `handleMouseMove`: the raw new
field before any clamping, from normalized deltas `dXN, dYN`. -/
def resizeRaw (start : SignatureField) (handle : ResizeHandle)
    (dXN dYN : ℚ) : SignatureField :=
  match handle with
  | .topLeft =>
      { start with
        xN := start.xN + dXN
        yN := start.yN + dYN
        wN := start.wN - dXN
        hN := start.hN - dYN }
  | .topRight =>
      { start with
        yN := start.yN + dYN
        wN := start.wN + dXN
        hN := start.hN - dYN }
  | .bottomLeft =>
      { start with
        xN := start.xN + dXN
        wN := start.wN - dXN
        hN := start.hN + dYN }
  | .bottomRight =>
      { start with
        wN := start.wN + dXN
        hN := start.hN + dYN }

/-- "Enforce minimum size (5% of page dimensions)" in `handleMouseMove`:
`if (newField.wN < minSize) newField.wN = minSize` and likewise for `hN`. -/
def clampMinSize (f : SignatureField) : SignatureField :=
  { f with
    wN := if f.wN < minSize then minSize else f.wN
    hN := if f.hN < minSize then minSize else f.hN }

/-- "Enforce boundaries (keep within page)" in `handleMouseMove`: the four
sequential `if` clamps on `xN` and `yN` (the second clamp on each axis sees
the value produced by the first). -/
def clampBounds (f : SignatureField) : SignatureField :=
  let x1 := if f.xN - f.wN / 2 < 0 then f.wN / 2 else f.xN
  let x2 := if x1 + f.wN / 2 > 1 then 1 - f.wN / 2 else x1
  let y1 := if f.yN - f.hN / 2 < 0 then f.hN / 2 else f.yN
  let y2 := if y1 + f.hN / 2 > 1 then 1 - f.hN / 2 else y1
  { f with xN := x2, yN := y2 }

/-- The resize branch of `handleMouseMove`: pixel deltas are divided by the
page pixel dimensions, the corner-specific raw update is applied, then the
minimum-size clamp, then the boundary clamp. -/
def resizeField (start : SignatureField) (handle : ResizeHandle)
    (deltaXPx deltaYPx pageWidth pageHeight : ℚ) : SignatureField :=
  clampBounds (clampMinSize
    (resizeRaw start handle (deltaXPx / pageWidth) (deltaYPx / pageHeight)))

/-- The drag branch of `handleMouseMove`: the center is translated by the
normalized delta and then clamped so the unchanged-size rectangle stays
within the page. (During a drag gesture the current field's `wN, hN` equal
the gesture-start field's, so `halfW`/`halfH` are taken from `start`.) -/
def dragField (start : SignatureField)
    (deltaXPx deltaYPx pageWidth pageHeight : ℚ) : SignatureField :=
  let dXN := deltaXPx / pageWidth
  let dYN := deltaYPx / pageHeight
  let newXN := start.xN + dXN
  let newYN := start.yN + dYN
  let halfW := start.wN / 2
  let halfH := start.hN / 2
  let x1 := if newXN - halfW < 0 then halfW else newXN
  let x2 := if x1 + halfW > 1 then 1 - halfW else x1
  let y1 := if newYN - halfH < 0 then halfH else newYN
  let y2 := if y1 + halfH > 1 then 1 - halfH else y1
  { start with xN := x2, yN := y2 }

/-- `handlePreviewClick` normalization (src/unnamed/part_001): a click at
pixel `(xPx, yPx)` on a page rendered at `(pageWidthPx, pageHeightPx)`
yields `xN = xPx / pageWidthPx`, `yN = yPx / pageHeightPx` with the fixed
field size `wN = 0.28`, `hN = 0.1`. -/
def placeField (xPx yPx pageWidthPx pageHeightPx : ℚ) (page : ℤ) :
    SignatureField :=
  { page := page
    xN := xPx / pageWidthPx
    yN := yPx / pageHeightPx
    wN := 0.28
    hN := 0.1 }

/-- A pixel-space rectangle for overlay rendering. -/
structure PixelRect where
  left : ℚ
  top : ℚ
  width : ℚ
  height : ℚ
deriving DecidableEq, Repr

/-- The overlay geometry of src/src/components/SignatureField.tsx:
`left = (xN - wN/2) * pageWidth`, `top = (yN - hN/2) * pageHeight`,
`width = wN * pageWidth`, `height = hN * pageHeight`. -/
def toPixelRect (f : SignatureField) (pageWidth pageHeight : ℚ) : PixelRect :=
  { left := (f.xN - f.wN / 2) * pageWidth
    top := (f.yN - f.hN / 2) * pageHeight
    width := f.wN * pageWidth
    height := f.hN * pageHeight }

/-! #### Pointer-move sequences over the geometry engine -/

/-- One pointer-move step: either a resize from one of the four corner
handles or a drag, each with a cumulative pixel delta and the rendered page
pixel dimensions. -/
inductive PointerOp
  | resize (handle : ResizeHandle) (deltaXPx deltaYPx pageWidth pageHeight : ℚ)
  | drag (deltaXPx deltaYPx pageWidth pageHeight : ℚ)
deriving DecidableEq, Repr

/-- Apply one pointer-move step to the field persisted at gesture start. -/
def applyPointerOp (f : SignatureField) : PointerOp → SignatureField
  | .resize handle dx dy pw ph => resizeField f handle dx dy pw ph
  | .drag dx dy pw ph => dragField f dx dy pw ph

/-- Apply a finite sequence of pointer-move steps. -/
def applyPointerOps (f : SignatureField) (ops : List PointerOp) :
    SignatureField :=
  ops.foldl applyPointerOp f

/-- The field rectangle `[xN - wN/2, xN + wN/2] × [yN - hN/2, yN + hN/2]`
lies within `[0,1] × [0,1]`. -/
def fieldInBounds (f : SignatureField) : Prop :=
  0 ≤ f.xN - f.wN / 2 ∧ f.xN + f.wN / 2 ≤ 1 ∧
    0 ≤ f.yN - f.hN / 2 ∧ f.yN + f.hN / 2 ≤ 1

instance (f : SignatureField) : Decidable (fieldInBounds f) := by
  unfold fieldInBounds
  infer_instance

/-- Both normalized dimensions are at least the 5% minimum. -/
def fieldMinSize (f : SignatureField) : Prop :=
  minSize ≤ f.wN ∧ minSize ≤ f.hN

instance (f : SignatureField) : Decidable (fieldMinSize f) := by
  unfold fieldMinSize
  infer_instance

/-- The §3 invariant on a signature field: `0 ≤ xN, yN ≤ 1`,
`0 < wN, hN ≤ 1`, and the field rectangle lies within `[0,1] × [0,1]`. -/
def specInvariant (f : SignatureField) : Prop :=
  0 ≤ f.xN ∧ f.xN ≤ 1 ∧ 0 ≤ f.yN ∧ f.yN ≤ 1 ∧
    0 < f.wN ∧ f.wN ≤ 1 ∧ 0 < f.hN ∧ f.hN ≤ 1 ∧ fieldInBounds f

instance (f : SignatureField) : Decidable (specInvariant f) := by
  unfold specInvariant
  infer_instance

/-- Both normalized dimensions are at most 1 (the field is no larger than
the page). -/
def sizeBounded (f : SignatureField) : Prop :=
  f.wN ≤ 1 ∧ f.hN ≤ 1

instance (f : SignatureField) : Decidable (sizeBounded f) := by
  unfold sizeBounded
  infer_instance

/-- Every intermediate field produced along the sequence has `wN ≤ 1` and
`hN ≤ 1`. -/
def opsKeepSizeBounded (f : SignatureField) : List PointerOp → Prop
  | [] => True
  | op :: ops =>
      sizeBounded (applyPointerOp f op) ∧
        opsKeepSizeBounded (applyPointerOp f op) ops

instance (f : SignatureField) (ops : List PointerOp) :
    Decidable (opsKeepSizeBounded f ops) := by
  induction ops generalizing f with
  | nil => exact .isTrue trivial
  | cons op ops ih =>
      unfold opsKeepSizeBounded
      exact @instDecidableAnd _ _ _ (ih _)

/-! ### Field placement endpoint (src/src/app/api/field/route.ts) -/

/-- The error cases of the field POST handler, in source order: the range
validation on the normalized coordinates, the positive-integer page
validation, and the status guard. (The missing-fields type check of the
handler is captured by the types of `SignatureField` itself.) -/
inductive FieldError
  | invalidCoordinates
  | invalidPage
  | notConverted
deriving DecidableEq, Repr

/-- `POST /api/field`: validates the request field's component ranges and
the page number, requires `status = converted`, and on success stores the
field via `writeMeta`. The second component of the result is the stored
`DocumentMeta` after the request (`writeMeta` runs only on the success
path, so on every error path the store is returned unchanged). -/
def fieldPOST (req : SignatureField) (store : DocumentMeta) :
    Except FieldError DocumentMeta × DocumentMeta :=
  if req.xN < 0 ∨ req.xN > 1 ∨ req.yN < 0 ∨ req.yN > 1 ∨
      req.wN ≤ 0 ∨ req.wN > 1 ∨ req.hN ≤ 0 ∨ req.hN > 1 then
    (.error .invalidCoordinates, store)
  else if req.page < 1 then
    (.error .invalidPage, store)
  else if store.status ≠ .converted then
    (.error .notConverted, store)
  else
    let updatedMeta := { store with signatureField := some req }
    (.ok updatedMeta, updatedMeta)

/-- A field request whose components pass the handler's range checks:
`0 ≤ xN, yN ≤ 1`, `0 < wN, hN ≤ 1` and `page ≥ 1`. -/
def wellFormedFieldReq (req : SignatureField) : Prop :=
  0 ≤ req.xN ∧ req.xN ≤ 1 ∧ 0 ≤ req.yN ∧ req.yN ≤ 1 ∧
    0 < req.wN ∧ req.wN ≤ 1 ∧ 0 < req.hN ∧ req.hN ≤ 1 ∧ 1 ≤ req.page

instance (req : SignatureField) : Decidable (wellFormedFieldReq req) := by
  unfold wellFormedFieldReq
  infer_instance

/-! ### Upload endpoint (src/src/app/api/upload/route.ts) -/

/-- `MAX_FILE_SIZE` from src/src/app/api/upload/route.ts (the source
comment next to it reads "15MB in bytes"). -/
def MAX_FILE_SIZE : ℕ := 5 * 1024 * 1024

/-- The aspects of the uploaded `File` the handler inspects: whether
`file.name.toLowerCase()` ends in `.docx`, its byte size, and whether its
MIME type is the Office Open XML word-processing type. -/
structure UploadFile where
  nameIsDocx : Bool
  size : ℕ
  mimeIsDocx : Bool
deriving DecidableEq, Repr

/-- The validation error cases of the upload POST handler, in source
order. -/
inductive UploadError
  | noFile
  | badExtension
  | tooLarge
  | badMime
deriving DecidableEq, Repr

/-- The `error` message string the handler returns for each validation
failure. -/
def uploadErrorMessage : UploadError → String
  | .noFile => "No file provided"
  | .badExtension => "Only .docx files are allowed"
  | .tooLarge => "File too large. Maximum size is 15MB"
  | .badMime => "Invalid file type"

/-- The outcome of `convertDocxToPdf`: the `success` flag, the optional
`pdfPath` and the optional `error` string of the conversion result. -/
structure ConvResult where
  success : Bool
  pdfPath : Option String
  err : Option String
deriving DecidableEq, Repr

/-- `POST /api/upload` (happy path and validation paths): the four
validations in source order, then the fresh `DocumentMeta` written from
the conversion result (`status` is `converted` or `failed`, `createdAt`
and `originalDocxPath` are set, `signedPdfPath` and `signatureField` are
reset to null). The second component is the stored `DocumentMeta` after
the request. -/
def uploadPOST (file : Option UploadFile) (conv : ConvResult)
    (now savedPath : String) (store : DocumentMeta) :
    Except UploadError DocumentMeta × DocumentMeta :=
  match file with
  | none => (.error .noFile, store)
  | some f =>
      if f.nameIsDocx = false then
        (.error .badExtension, store)
      else if f.size > MAX_FILE_SIZE then
        (.error .tooLarge, store)
      else if f.mimeIsDocx = false then
        (.error .badMime, store)
      else
        let metaToWrite : DocumentMeta :=
          { status := if conv.success then .converted else .failed
            createdAt := some now
            originalDocxPath := some savedPath
            previewPdfPath := if conv.success then conv.pdfPath else none
            signedPdfPath := none
            signatureField := none
            lastError :=
              if conv.success then none
              else some (conv.err.getD "PDF conversion failed") }
        (.ok metaToWrite, metaToWrite)

/-- The `catch` block of the upload handler: re-reads the current meta and
writes it back with `status = failed` and the error message, keeping every
other stored value (including `signedPdfPath`). -/
def uploadCatch (msg : String) (store : DocumentMeta) : DocumentMeta :=
  { store with status := .failed, lastError := some msg }

/-! ### Sign endpoint (src/unnamed/part_005) -/

/-- The aspects of the sign request body the handler inspects: whether
`signatureDataUrl` is a present string and whether it starts with
`data:image/png;base64,`. -/
structure SignRequest where
  hasDataUrl : Bool
  isPngDataUrl : Bool
deriving DecidableEq, Repr

/-- The error cases of the sign POST handler, in source order. -/
inductive SignError
  | missingDataUrl
  | notPngDataUrl
  | noPreviewPath
  | noSignatureField
  | notConverted
  | previewBlobMissing
  | stampFailed
deriving DecidableEq, Repr

/-- `POST /api/sign`: the validations in source order (data URL shape,
`previewPdfPath` present, `signatureField` placed, `status = converted`,
preview blob exists), the stamping step (whose failure returns a 500
without writing meta), and on success the meta written with
`status = signed` and `signedPdfPath` set to the signed blob URL or the
`SIGNED_PDF_KEY` fallback. The second component is the stored
`DocumentMeta` after the request. -/
def signPOST (req : SignRequest) (previewExists stampOk : Bool)
    (signedPdfUrl : Option String) (store : DocumentMeta) :
    Except SignError DocumentMeta × DocumentMeta :=
  if req.hasDataUrl = false then
    (.error .missingDataUrl, store)
  else if req.isPngDataUrl = false then
    (.error .notPngDataUrl, store)
  else if store.previewPdfPath = none then
    (.error .noPreviewPath, store)
  else if store.signatureField = none then
    (.error .noSignatureField, store)
  else if store.status ≠ .converted then
    (.error .notConverted, store)
  else if previewExists = false then
    (.error .previewBlobMissing, store)
  else if stampOk = false then
    (.error .stampFailed, store)
  else
    let metaToWrite :=
      { store with
        status := .signed
        signedPdfPath := some (signedPdfUrl.getD "active/signed.pdf") }
    (.ok metaToWrite, metaToWrite)

/-- The `catch` block of the sign handler: identical in effect to the
upload handler's catch block. -/
def signCatch (msg : String) (store : DocumentMeta) : DocumentMeta :=
  { store with status := .failed, lastError := some msg }

/-- `clearActiveDocument` (src/src/lib/storage.ts): resets the stored
metadata to `DEFAULT_META`. -/
def clearActiveDocument (_store : DocumentMeta) : DocumentMeta :=
  DEFAULT_META

/-! ### The document state machine as operations on the stored meta -/

/-- One operation of the document state machine, covering the success,
validation and exception (catch-block) paths of every mutating endpoint. -/
inductive DocOp
  | upload (file : Option UploadFile) (conv : ConvResult) (now savedPath : String)
  | uploadFailure (msg : String)
  | placeField (req : SignatureField)
  | sign (req : SignRequest) (previewExists stampOk : Bool) (signedPdfUrl : Option String)
  | signFailure (msg : String)
  | clear
deriving DecidableEq, Repr

/-- The stored `DocumentMeta` after one operation. -/
def applyDocOp (store : DocumentMeta) : DocOp → DocumentMeta
  | .upload file conv now savedPath => (uploadPOST file conv now savedPath store).2
  | .uploadFailure msg => uploadCatch msg store
  | .placeField req => (fieldPOST req store).2
  | .sign req previewExists stampOk signedPdfUrl =>
      (signPOST req previewExists stampOk signedPdfUrl store).2
  | .signFailure msg => signCatch msg store
  | .clear => clearActiveDocument store

/-- The §3 invariant "`signedRef` is non-null iff `status = signed`". -/
def signedRefInv (m : DocumentMeta) : Prop :=
  m.signedPdfPath ≠ none ↔ m.status = .signed

instance (m : DocumentMeta) : Decidable (signedRefInv m) := by
  unfold signedRefInv
  infer_instance

/-- Whether an operation is one of the two exception (catch-block)
paths. -/
def isFailurePath : DocOp → Bool
  | .uploadFailure _ => true
  | .signFailure _ => true
  | _ => false

/-! ### Download endpoint (src/unnamed/part_004) -/

/-- The two values of the `type` query parameter (after its validation). -/
inductive DownloadType
  | preview
  | signed
deriving DecidableEq, Repr

/-- The error cases of the download GET handler after type validation. -/
inductive DownloadError
  | notAvailable
deriving DecidableEq, Repr

/-- `GET /api/download`: resolves `pdfPath` from the meta (for
`type=preview` the signed path is preferred when the document is signed
and the signed path is non-null), returns a 404-style error when the
resolved path is null, and otherwise serves the bytes of the blob under
the returned key (`active/signed.pdf` for `type=preview` whenever the
status is signed, `active/preview.pdf` otherwise). -/
def downloadGET (type : DownloadType) (store : DocumentMeta) :
    Except DownloadError String :=
  let pdfPath :=
    match type with
    | .preview =>
        if store.status = DocumentStatus.signed ∧ store.signedPdfPath ≠ none then
          store.signedPdfPath
        else
          store.previewPdfPath
    | .signed => store.signedPdfPath
  match pdfPath with
  | none => .error .notAvailable
  | some _ =>
      let blobKey :=
        match type with
        | .preview =>
            if store.status = DocumentStatus.signed then "active/signed.pdf"
            else "active/preview.pdf"
        | .signed => "active/signed.pdf"
      .ok blobKey

/-! ### PDF stamper (src/unnamed/part_011, `stampSignatureOnPdf`) -/

/-- A page's native size in PDF points, as returned by `page.getSize()`. -/
structure PageSize where
  width : ℚ
  height : ℚ
deriving DecidableEq, Repr

/-- The draw command issued to `page.drawImage`: the bottom-left origin
`(x, y)` and the size `(width, height)` in points. -/
structure DrawCmd where
  x : ℚ
  y : ℚ
  width : ℚ
  height : ℚ
deriving DecidableEq, Repr

/-- The error cases of `stampSignatureOnPdf`: the explicit invalid-page
throw, and a failure of `embedSignatureImage` on malformed image data. -/
inductive StampError
  | invalidPage (page : ℤ) (pageCount : ℕ)
  | embedFailed
deriving DecidableEq, Repr

/-- `stampSignatureOnPdf`: resolves `pageIndex = field.page - 1`, throws
the invalid-page error when `pageIndex < 0 || pageIndex >= pages.length`,
reads the page's native size, converts the normalized geometry to point
space with the Y-axis flip, embeds the PNG (`imageOk` abstracts whether
`embedSignatureImage` succeeds on the given image data) and draws it. The
`none` branch of the page lookup is unreachable under the bounds check. -/
def stampSignatureOnPdf (pages : List PageSize) (imageOk : Bool)
    (field : SignatureField) : Except StampError DrawCmd :=
  let pageIndex : ℤ := field.page - 1
  if pageIndex < 0 ∨ (pages.length : ℤ) ≤ pageIndex then
    .error (.invalidPage field.page pages.length)
  else
    match pages.get? pageIndex.toNat with
    | none => .error (.invalidPage field.page pages.length)
    | some page =>
        let wPt := field.wN * page.width
        let hPt := field.hN * page.height
        let xPt := field.xN * page.width
        let yPt := (1 - field.yN) * page.height
        let drawX := xPt - wPt / 2
        let drawY := yPt - hPt / 2
        if imageOk = false then
          .error .embedFailed
        else
          .ok { x := drawX, y := drawY, width := wPt, height := hPt }

/-- Whether the stamp result is the invalid-page error. -/
def isInvalidPageError : Except StampError DrawCmd → Bool
  | .error (.invalidPage _ _) => true
  | _ => false

/-! ### Concrete records used in counterexamples and witnesses -/

/-- A reachable stored meta in status `converted`. -/
def convertedMeta : DocumentMeta :=
  { status := .converted
    createdAt := some "2026-01-01T00:00:00.000Z"
    originalDocxPath := some "active/original.docx"
    previewPdfPath := some "active/preview.pdf"
    signedPdfPath := none
    signatureField := none
    lastError := none }

/-- A reachable stored meta in status `signed`. -/
def signedMeta : DocumentMeta :=
  { status := .signed
    createdAt := some "2026-01-01T00:00:00.000Z"
    originalDocxPath := some "active/original.docx"
    previewPdfPath := some "active/preview.pdf"
    signedPdfPath := some "active/signed.pdf"
    signatureField := some { page := 1, xN := 1/2, yN := 1/2, wN := 7/25, hN := 1/10 }
    lastError := none }

/-! ### Helper lemmas: geometry engine -/

theorem clampBounds_wN (f : SignatureField) : (clampBounds f).wN = f.wN := rfl

theorem clampBounds_hN (f : SignatureField) : (clampBounds f).hN = f.hN := rfl

theorem clampMinSize_le (f : SignatureField) :
    minSize ≤ (clampMinSize f).wN ∧ minSize ≤ (clampMinSize f).hN := by
  unfold clampMinSize
  constructor <;> dsimp only <;> split_ifs with h <;> linarith

theorem clampBounds_inBounds (f : SignatureField)
    (hw : f.wN ≤ 1) (hh : f.hN ≤ 1) : fieldInBounds (clampBounds f) := by
  unfold fieldInBounds clampBounds
  dsimp only
  refine ⟨?_, ?_, ?_, ?_⟩ <;> split_ifs <;> linarith

theorem resizeField_minSize (start : SignatureField) (handle : ResizeHandle)
    (dx dy pw ph : ℚ) : fieldMinSize (resizeField start handle dx dy pw ph) := by
  unfold resizeField fieldMinSize
  rw [clampBounds_wN, clampBounds_hN]
  exact clampMinSize_le _

theorem resizeField_inBounds (start : SignatureField) (handle : ResizeHandle)
    (dx dy pw ph : ℚ)
    (hb : sizeBounded (resizeField start handle dx dy pw ph)) :
    fieldInBounds (resizeField start handle dx dy pw ph) := by
  obtain ⟨hw, hh⟩ := hb
  rw [resizeField, clampBounds_wN] at hw
  rw [resizeField, clampBounds_hN] at hh
  exact clampBounds_inBounds _ hw hh

theorem dragField_wN (start : SignatureField) (dx dy pw ph : ℚ) :
    (dragField start dx dy pw ph).wN = start.wN := rfl

theorem dragField_hN (start : SignatureField) (dx dy pw ph : ℚ) :
    (dragField start dx dy pw ph).hN = start.hN := rfl

theorem dragField_inBounds (start : SignatureField) (dx dy pw ph : ℚ)
    (hw : start.wN ≤ 1) (hh : start.hN ≤ 1) :
    fieldInBounds (dragField start dx dy pw ph) := by
  unfold fieldInBounds dragField
  dsimp only
  refine ⟨?_, ?_, ?_, ?_⟩ <;> split_ifs <;> linarith

/-- One pointer-move step preserves the maintained invariant, given that
the step's result stays no larger than the page. -/
theorem applyPointerOp_preserves (f : SignatureField) (op : PointerOp)
    (hf : fieldMinSize f ∧ fieldInBounds f ∧ sizeBounded f)
    (hop : sizeBounded (applyPointerOp f op)) :
    fieldMinSize (applyPointerOp f op) ∧ fieldInBounds (applyPointerOp f op) ∧
      sizeBounded (applyPointerOp f op) := by
  obtain ⟨hmin, hbnd, hsz⟩ := hf
  cases op with
  | resize handle dx dy pw ph =>
      exact ⟨resizeField_minSize f handle dx dy pw ph,
        resizeField_inBounds f handle dx dy pw ph hop, hop⟩
  | drag dx dy pw ph =>
      refine ⟨?_, dragField_inBounds f dx dy pw ph hsz.1 hsz.2, hop⟩
      show fieldMinSize (dragField f dx dy pw ph)
      unfold fieldMinSize
      rw [dragField_wN, dragField_hN]
      exact hmin

theorem applyPointerOps_preserves (f : SignatureField) (ops : List PointerOp)
    (hf : fieldMinSize f ∧ fieldInBounds f ∧ sizeBounded f)
    (hops : opsKeepSizeBounded f ops) :
    fieldMinSize (applyPointerOps f ops) ∧ fieldInBounds (applyPointerOps f ops) ∧
      sizeBounded (applyPointerOps f ops) := by
  induction ops generalizing f with
  | nil => exact hf
  | cons op ops ih =>
      have hstep := applyPointerOp_preserves f op hf hops.1
      have : applyPointerOps f (op :: ops) =
          applyPointerOps (applyPointerOp f op) ops := rfl
      rw [this]
      exact ih _ hstep hops.2

/-! ### Claim C1 -/

/-- C1 counterexample: the claim as stated is false on the code.
(a) From the §3-invariant field `⟨1, 1/2, 1/2, 7/25, 1/10⟩`, one
bottom-right resize with pixel delta `(+2000, 0)` on a 1000×1000px page
(positive dimensions) makes `wN = 57/25 > 1`, after which the boundary
clamps leave the rectangle outside `[0,1]×[0,1]`.
(b) From the §3-invariant field `⟨1, 1/2, 1/2, 1/100, 1/100⟩`, a drag with
delta `(0, 0)` leaves `wN = 1/100 < 0.05`: drag never enforces the 5%
minimum, and the §3 invariant does not require it of the starting field. -/
theorem resize_drag_invariant_counterexample :
    (specInvariant { page := 1, xN := 1/2, yN := 1/2, wN := 7/25, hN := 1/10 } ∧
      ¬ fieldInBounds (applyPointerOps
          { page := 1, xN := 1/2, yN := 1/2, wN := 7/25, hN := 1/10 }
          [.resize .bottomRight 2000 0 1000 1000])) ∧
    (specInvariant { page := 1, xN := 1/2, yN := 1/2, wN := 1/100, hN := 1/100 } ∧
      ¬ fieldMinSize (applyPointerOps
          { page := 1, xN := 1/2, yN := 1/2, wN := 1/100, hN := 1/100 }
          [.drag 0 0 1000 1000])) := by
  refine ⟨⟨?_, ?_⟩, ?_, ?_⟩
  · norm_num [specInvariant, fieldInBounds]
  · norm_num [applyPointerOps, List.foldl, applyPointerOp, resizeField,
      resizeRaw, clampMinSize, clampBounds, minSize, fieldInBounds]
  · norm_num [specInvariant, fieldInBounds]
  · norm_num [applyPointerOps, List.foldl, applyPointerOp, dragField,
      fieldMinSize, minSize]

/-- C1 (amended): for every signature field satisfying the §3 invariant
that additionally has `wN, hN ≥ 0.05`, and every finite sequence of
pointer-move deltas applied through resize (any of the four corner
handles) or drag along which every intermediate field keeps `wN ≤ 1` and
`hN ≤ 1`, the resulting field has `wN ≥ 0.05`, `hN ≥ 0.05` and its
rectangle `[xN−wN/2, xN+wN/2] × [yN−hN/2, yN+hN/2]` lies within
`[0,1]×[0,1]`. -/
theorem resize_drag_preserve_invariants (f : SignatureField)
    (ops : List PointerOp) (hinv : specInvariant f) (hmin : fieldMinSize f)
    (hops : opsKeepSizeBounded f ops) :
    fieldMinSize (applyPointerOps f ops) ∧
      fieldInBounds (applyPointerOps f ops) := by
  obtain ⟨_, _, _, _, _, hw1, _, hh1, hbnd⟩ := hinv
  have h := applyPointerOps_preserves f ops ⟨hmin, hbnd, hw1, hh1⟩ hops
  exact ⟨h.1, h.2.1⟩

/-- Witness for C1 (amended) at the field `⟨1, 1/2, 1/2, 7/25, 1/10⟩` and
a two-step sequence: a bottom-right resize by `(+50, +20)` followed by a
drag by `(+100, −300)`, both on a 1000×1000px page. -/
theorem resize_drag_preserve_invariants_witness :
    fieldMinSize (applyPointerOps
        { page := 1, xN := 1/2, yN := 1/2, wN := 7/25, hN := 1/10 }
        [.resize .bottomRight 50 20 1000 1000, .drag 100 (-300) 1000 1000]) ∧
      fieldInBounds (applyPointerOps
        { page := 1, xN := 1/2, yN := 1/2, wN := 7/25, hN := 1/10 }
        [.resize .bottomRight 50 20 1000 1000, .drag 100 (-300) 1000 1000]) :=
  resize_drag_preserve_invariants _ _
    (by norm_num [specInvariant, fieldInBounds])
    (by norm_num [fieldMinSize, minSize])
    (by norm_num [opsKeepSizeBounded, applyPointerOp, resizeField, resizeRaw,
      clampMinSize, clampBounds, dragField, minSize, sizeBounded])

/-! ### Claim C7 -/

/-- C7: for every starting field for which no minimum-size or boundary
clamp triggers, resizing from the bottom-right corner with pixel delta
`(+50, +20)` on a 1000×1000px page increases `wN` by exactly `0.05` and
`hN` by exactly `0.02`, leaving `xN` and `yN` at their starting values. -/
theorem resize_bottomRight_50_20 (start : SignatureField)
    (hminW : minSize ≤ start.wN + 50 / 1000)
    (hminH : minSize ≤ start.hN + 20 / 1000)
    (hxl : 0 ≤ start.xN - (start.wN + 50 / 1000) / 2)
    (hxr : start.xN + (start.wN + 50 / 1000) / 2 ≤ 1)
    (hyt : 0 ≤ start.yN - (start.hN + 20 / 1000) / 2)
    (hyb : start.yN + (start.hN + 20 / 1000) / 2 ≤ 1) :
    resizeField start .bottomRight 50 20 1000 1000 =
      { start with wN := start.wN + 0.05, hN := start.hN + 0.02 } := by
  have hW2 : ¬ (start.wN + 50 / 1000 < minSize) := not_lt.mpr hminW
  have hH2 : ¬ (start.hN + 20 / 1000 < minSize) := not_lt.mpr hminH
  have hx1 : ¬ (start.xN - (start.wN + 50 / 1000) / 2 < 0) := not_lt.mpr hxl
  have hx2 : ¬ (start.xN + (start.wN + 50 / 1000) / 2 > 1) := not_lt.mpr hxr
  have hy1 : ¬ (start.yN - (start.hN + 20 / 1000) / 2 < 0) := not_lt.mpr hyt
  have hy2 : ¬ (start.yN + (start.hN + 20 / 1000) / 2 > 1) := not_lt.mpr hyb
  simp only [resizeField, resizeRaw, clampMinSize, clampBounds,
    if_neg hW2, if_neg hH2, if_neg hx1, if_neg hx2, if_neg hy1, if_neg hy2,
    SignatureField.mk.injEq]
  norm_num

/-- Witness for C7 at the starting field `⟨1, 1/2, 1/2, 7/25, 1/10⟩`, for
which no clamp triggers. -/
theorem resize_bottomRight_50_20_witness :
    resizeField { page := 1, xN := 1/2, yN := 1/2, wN := 7/25, hN := 1/10 }
        .bottomRight 50 20 1000 1000 =
      { page := 1, xN := 1/2, yN := 1/2, wN := 7/25 + 0.05, hN := 1/10 + 0.02 } :=
  resize_bottomRight_50_20 _
    (by norm_num [minSize]) (by norm_num [minSize]) (by norm_num)
    (by norm_num) (by norm_num) (by norm_num)

/-! ### Claim C8 -/

/-- C8: for every click at pixel `(x, y)` on a rendered page of size
`(W, H)` with `W, H > 0`, placing a field there (`xN = x/W`, `yN = y/H`,
fixed `wN = 0.28`, `hN = 0.10`) and converting back with `toPixelRect`
yields a rectangle whose center `(left + width/2, top + height/2)`
reproduces `(x, y)` exactly. -/
theorem toPixelRect_inverts_placeField (x y W H : ℚ) (page : ℤ)
    (hW : 0 < W) (hH : 0 < H) :
    (toPixelRect (placeField x y W H page) W H).left +
        (toPixelRect (placeField x y W H page) W H).width / 2 = x ∧
      (toPixelRect (placeField x y W H page) W H).top +
        (toPixelRect (placeField x y W H page) W H).height / 2 = y := by
  unfold toPixelRect placeField
  dsimp only
  constructor <;> field_simp <;> ring

/-- Witness for C8 at the click `(137, 256)` on a 1000×800px page. -/
theorem toPixelRect_inverts_placeField_witness :
    (toPixelRect (placeField 137 256 1000 800 1) 1000 800).left +
        (toPixelRect (placeField 137 256 1000 800 1) 1000 800).width / 2 = 137 ∧
      (toPixelRect (placeField 137 256 1000 800 1) 1000 800).top +
        (toPixelRect (placeField 137 256 1000 800 1) 1000 800).height / 2 = 256 :=
  toPixelRect_inverts_placeField 137 256 1000 800 1 (by norm_num) (by norm_num)

/-! ### Helper lemmas: PDF stamper -/

/-- For an in-range page, `stampSignatureOnPdf` reduces to the embed check
followed by the draw command computed from the resolved page's size. -/
theorem stampSignatureOnPdf_inRange (pages : List PageSize) (imageOk : Bool)
    (f : SignatureField) (page : PageSize)
    (h1 : 1 ≤ f.page) (h2 : pages.get? (f.page - 1).toNat = some page) :
    stampSignatureOnPdf pages imageOk f =
      if imageOk = false then .error .embedFailed
      else .ok { x := f.xN * page.width - f.wN * page.width / 2
                 y := (1 - f.yN) * page.height - f.hN * page.height / 2
                 width := f.wN * page.width
                 height := f.hN * page.height } := by
  have hlt : (f.page - 1).toNat < pages.length := by
    by_contra hge
    rw [List.get?_eq_getElem?, List.getElem?_eq_none (by omega)] at h2
    exact Option.noConfusion h2
  have hcond : ¬ (f.page - 1 < 0 ∨ (pages.length : ℤ) ≤ f.page - 1) := by
    omega
  simp only [stampSignatureOnPdf]
  rw [if_neg hcond, h2]

/-! ### Claim C2 -/

/-- C2: for every signature field and every source PDF page of native
size `(pageWidth, pageHeight)` in points, the stamp operation draws the
signature image at `x = xN*pageWidth − (wN*pageWidth)/2`,
`y = (1−yN)*pageHeight − (hN*pageHeight)/2`, with width `wN*pageWidth` and
height `hN*pageHeight`; in particular, for a 612×792pt page and the field
`{page: 1, xN: 0.5, yN: 0.5, wN: 0.28, hN: 0.10}` the draw position is
`(220.32, 356.4)` with size `171.36 × 79.2` (exactly, over ℚ). -/
theorem stamp_draw_geometry :
    (∀ (pages : List PageSize) (f : SignatureField) (page : PageSize),
        1 ≤ f.page → pages.get? (f.page - 1).toNat = some page →
          stampSignatureOnPdf pages true f =
            .ok { x := f.xN * page.width - f.wN * page.width / 2
                  y := (1 - f.yN) * page.height - f.hN * page.height / 2
                  width := f.wN * page.width
                  height := f.hN * page.height }) ∧
      stampSignatureOnPdf [{ width := 612, height := 792 }] true
          { page := 1, xN := 0.5, yN := 0.5, wN := 0.28, hN := 0.10 } =
        .ok { x := 220.32, y := 356.4, width := 171.36, height := 79.2 } := by
  have hgen : ∀ (pages : List PageSize) (f : SignatureField) (page : PageSize),
      1 ≤ f.page → pages.get? (f.page - 1).toNat = some page →
        stampSignatureOnPdf pages true f =
          .ok { x := f.xN * page.width - f.wN * page.width / 2
                y := (1 - f.yN) * page.height - f.hN * page.height / 2
                width := f.wN * page.width
                height := f.hN * page.height } := by
    intro pages f page h1 h2
    rw [stampSignatureOnPdf_inRange pages true f page h1 h2,
      if_neg (by simp)]
  refine ⟨hgen, ?_⟩
  rw [hgen [{ width := 612, height := 792 }]
      { page := 1, xN := 0.5, yN := 0.5, wN := 0.28, hN := 0.10 }
      { width := 612, height := 792 } (by norm_num) rfl]
  norm_num

/-- Witness for C2 at a 100×200pt page and the field
`⟨1, 1/4, 1/4, 1/2, 1/2⟩`. -/
theorem stamp_draw_geometry_witness :
    stampSignatureOnPdf [{ width := 100, height := 200 }] true
        { page := 1, xN := 1/4, yN := 1/4, wN := 1/2, hN := 1/2 } =
      .ok { x := 0, y := 100, width := 50, height := 100 } := by
  rw [stamp_draw_geometry.1 [{ width := 100, height := 200 }]
      { page := 1, xN := 1/4, yN := 1/4, wN := 1/2, hN := 1/2 }
      { width := 100, height := 200 } (by norm_num) rfl]
  norm_num

/-! ### Claim C6 -/

/-- C6: with valid image data, the stamp operation fails with the
invalid-page error if and only if `field.page` lies outside
`[1, pageCount]`; for in-range pages it resolves
`page = pages[field.page − 1]` and succeeds. -/
theorem stamp_invalidPage_iff :
    (∀ (pages : List PageSize) (f : SignatureField),
        isInvalidPageError (stampSignatureOnPdf pages true f) = true ↔
          f.page < 1 ∨ (pages.length : ℤ) < f.page) ∧
      ∀ (pages : List PageSize) (f : SignatureField),
        1 ≤ f.page → f.page ≤ (pages.length : ℤ) →
          ∃ page : PageSize, pages.get? (f.page - 1).toNat = some page ∧
            ∃ cmd : DrawCmd, stampSignatureOnPdf pages true f = .ok cmd := by
  have hsome : ∀ (pages : List PageSize) (f : SignatureField),
      1 ≤ f.page → f.page ≤ (pages.length : ℤ) →
        ∃ page : PageSize, pages.get? (f.page - 1).toNat = some page := by
    intro pages f h1 h2
    have hlt : (f.page - 1).toNat < pages.length := by omega
    rw [List.get?_eq_getElem?]
    exact ⟨pages[(f.page - 1).toNat], List.getElem?_eq_some.mpr ⟨hlt, rfl⟩⟩
  constructor
  · intro pages f
    by_cases hcond : f.page - 1 < 0 ∨ (pages.length : ℤ) ≤ f.page - 1
    · constructor
      · intro _
        omega
      · intro _
        simp only [stampSignatureOnPdf, if_pos hcond, isInvalidPageError]
    · obtain ⟨page, hpage⟩ := hsome pages f (by omega) (by omega)
      rw [stampSignatureOnPdf_inRange pages true f page (by omega) hpage,
        if_neg (by simp)]
      constructor
      · intro hfalse
        simp [isInvalidPageError] at hfalse
      · intro hrange
        omega
  · intro pages f h1 h2
    obtain ⟨page, hpage⟩ := hsome pages f h1 h2
    refine ⟨page, hpage, ?_⟩
    rw [stampSignatureOnPdf_inRange pages true f page h1 hpage,
      if_neg (by simp)]
    exact ⟨_, rfl⟩

/-- Witness for C6: on an empty page list every page number is out of
range, and on a one-page document page 1 is in range and stamping
succeeds. -/
theorem stamp_invalidPage_iff_witness :
    isInvalidPageError (stampSignatureOnPdf []
        true { page := 1, xN := 1/2, yN := 1/2, wN := 7/25, hN := 1/10 }) = true ∧
      ∃ page : PageSize,
        [({ width := 612, height := 792 } : PageSize)].get? ((1 : ℤ) - 1).toNat =
          some page ∧
        ∃ cmd : DrawCmd, stampSignatureOnPdf [{ width := 612, height := 792 }]
          true { page := 1, xN := 1/2, yN := 1/2, wN := 7/25, hN := 1/10 } = .ok cmd :=
  ⟨(stamp_invalidPage_iff.1 []
      { page := 1, xN := 1/2, yN := 1/2, wN := 7/25, hN := 1/10 }).mpr
      (by norm_num),
    stamp_invalidPage_iff.2 [{ width := 612, height := 792 }]
      { page := 1, xN := 1/2, yN := 1/2, wN := 7/25, hN := 1/10 }
      (by norm_num) (by norm_num)⟩

/-! ### Claim C3 -/

/-- C3 counterexample: the field `{page: 1, xN: 0, yN: 1/2, wN: 1,
hN: 1/10}` has all components in range but its rectangle
`[−1/2, 1/2] × [9/20, 11/20]` is not within `[0,1]×[0,1]`; with the
document converted, the field endpoint accepts the request and stores the
field instead of rejecting it: the handler never checks rectangle
containment. -/
theorem fieldPOST_accepts_overflowing_rect :
    wellFormedFieldReq { page := 1, xN := 0, yN := 1/2, wN := 1, hN := 1/10 } ∧
      ¬ fieldInBounds { page := 1, xN := 0, yN := 1/2, wN := 1, hN := 1/10 } ∧
      (fieldPOST { page := 1, xN := 0, yN := 1/2, wN := 1, hN := 1/10 }
          convertedMeta).1 =
        .ok { convertedMeta with
              signatureField :=
                some { page := 1, xN := 0, yN := 1/2, wN := 1, hN := 1/10 } } ∧
      (fieldPOST { page := 1, xN := 0, yN := 1/2, wN := 1, hN := 1/10 }
          convertedMeta).2.signatureField =
        some { page := 1, xN := 0, yN := 1/2, wN := 1, hN := 1/10 } := by
  refine ⟨?_, ?_, ?_, ?_⟩
  · norm_num [wellFormedFieldReq]
  · norm_num [fieldInBounds]
  · norm_num [fieldPOST, convertedMeta]
  · norm_num [fieldPOST, convertedMeta]

/-- C3 (amended): the field endpoint rejects with an error and leaves the
store unchanged exactly when a component is out of range (`xN, yN ∉ [0,1]`,
`wN, hN ∉ (0,1]`, `page < 1`) or the stored status is not `converted`;
when the components are in range and the status is `converted` it accepts
and stores the field, performing no rectangle-containment check, so a
request whose rectangle extends outside `[0,1]×[0,1]` is stored as long as
its components are in range. -/
theorem fieldPOST_validation (req : SignatureField) (store : DocumentMeta) :
    ((¬ wellFormedFieldReq req ∨ store.status ≠ .converted) →
        (∃ e : FieldError, (fieldPOST req store).1 = .error e) ∧
          (fieldPOST req store).2 = store) ∧
      (wellFormedFieldReq req → store.status = .converted →
        (fieldPOST req store).1 =
            .ok { store with signatureField := some req } ∧
          (fieldPOST req store).2 = { store with signatureField := some req }) := by
  unfold fieldPOST
  split_ifs with hA hB hC
  · refine ⟨fun _ => ⟨⟨_, rfl⟩, rfl⟩, fun hw _ => ?_⟩
    obtain ⟨h1, h2, h3, h4, h5, h6, h7, h8, h9⟩ := hw
    rcases hA with h | h | h | h | h | h | h | h <;> linarith
  · refine ⟨fun _ => ⟨⟨_, rfl⟩, rfl⟩, fun hw _ => ?_⟩
    obtain ⟨-, -, -, -, -, -, -, -, h9⟩ := hw
    omega
  · exact ⟨fun _ => ⟨⟨_, rfl⟩, rfl⟩, fun _ hst => absurd hst hC⟩
  · refine ⟨fun hbad => ?_, fun _ _ => ⟨rfl, rfl⟩⟩
    simp only [not_or, not_lt, not_le] at hA
    obtain ⟨h1, h2, h3, h4, h5, h6, h7, h8⟩ := hA
    rcases hbad with hw | hst
    · exact absurd ⟨h1, h2, h3, h4, h5, h6, h7, h8, by omega⟩ hw
    · exact absurd (not_ne_iff.mp hC) hst

/-- Witness for C3 (amended): a well-formed request against the empty
store is rejected and changes nothing. -/
theorem fieldPOST_validation_witness :
    (∃ e : FieldError,
        (fieldPOST { page := 1, xN := 1/2, yN := 1/2, wN := 7/25, hN := 1/10 }
          DEFAULT_META).1 = .error e) ∧
      (fieldPOST { page := 1, xN := 1/2, yN := 1/2, wN := 7/25, hN := 1/10 }
        DEFAULT_META).2 = DEFAULT_META :=
  (fieldPOST_validation
      { page := 1, xN := 1/2, yN := 1/2, wN := 7/25, hN := 1/10 }
      DEFAULT_META).1
    (Or.inr (by simp [DEFAULT_META]))

/-! ### Claim C5 -/

/-- C5: every well-formed place-or-update-field request issued while the
stored document status is `uploaded` or `empty` is answered with the
state-conflict error carrying its explicit reason, and the stored
`DocumentMeta` is left completely unchanged. -/
theorem fieldPOST_stateConflict (req : SignatureField) (store : DocumentMeta)
    (hreq : wellFormedFieldReq req)
    (hstatus : store.status = .uploaded ∨ store.status = .empty) :
    (fieldPOST req store).1 = .error .notConverted ∧
      (fieldPOST req store).2 = store := by
  obtain ⟨h1, h2, h3, h4, h5, h6, h7, h8, h9⟩ := hreq
  unfold fieldPOST
  split_ifs with hA hB hC
  · rcases hA with h | h | h | h | h | h | h | h <;> linarith
  · omega
  · exact ⟨rfl, rfl⟩
  · rcases hstatus with h | h <;> rw [h] at hC <;> simp at hC

/-- Witness for C5: a well-formed request against the empty store. -/
theorem fieldPOST_stateConflict_witness :
    (fieldPOST { page := 1, xN := 1/2, yN := 1/2, wN := 7/25, hN := 1/10 }
        DEFAULT_META).1 = .error .notConverted ∧
      (fieldPOST { page := 1, xN := 1/2, yN := 1/2, wN := 7/25, hN := 1/10 }
        DEFAULT_META).2 = DEFAULT_META :=
  fieldPOST_stateConflict _ _ (by norm_num [wellFormedFieldReq])
    (Or.inr rfl)

/-! ### Claim C4 -/

/-- C4 counterexample: from the reachable signed record, the upload
handler's catch path (`{...currentMeta, status: 'failed', lastError}`)
keeps `signedPdfPath` non-null while setting the status to `failed`, so
the invariant "`signedRef` is non-null iff `status = signed`" is not
preserved by that failure path. -/
theorem signedRefInv_broken_by_failure_paths :
    signedRefInv signedMeta ∧
      applyDocOp signedMeta (.uploadFailure "Upload failed") =
        { signedMeta with status := .failed, lastError := some "Upload failed" } ∧
      ¬ signedRefInv (applyDocOp signedMeta (.uploadFailure "Upload failed")) := by
  refine ⟨?_, rfl, ?_⟩
  · simp [signedRefInv, signedMeta]
  · simp [signedRefInv, applyDocOp, uploadCatch, signedMeta]

/-- C4 (amended): the invariant "`signedRef` is non-null iff
`status = signed`" holds in the initial `DocumentMeta` and is preserved by
every operation of the document state machine, except that the failure
paths of upload and sign preserve it only when the prior record's status
is not `signed` (applied to a signed record they produce `status = failed`
with `signedRef` still non-null). -/
theorem signedRefInv_preserved (m : DocumentMeta) (op : DocOp)
    (hm : signedRefInv m)
    (hfail : isFailurePath op = true → m.status ≠ .signed) :
    signedRefInv DEFAULT_META ∧ signedRefInv (applyDocOp m op) := by
  refine ⟨by simp [signedRefInv, DEFAULT_META], ?_⟩
  cases op with
  | upload file conv now savedPath =>
      cases file with
      | none => exact hm
      | some f =>
          simp only [applyDocOp, uploadPOST]
          split_ifs with h1 h2 h3 h4
          · exact hm
          · exact hm
          · exact hm
          · simp [signedRefInv]
          · simp [signedRefInv]
  | uploadFailure msg =>
      have hns : m.status ≠ .signed := hfail rfl
      have hnone : m.signedPdfPath = none := by
        by_contra hsome
        exact hns (hm.mp hsome)
      simp [applyDocOp, uploadCatch, signedRefInv, hnone]
  | placeField req =>
      simp only [applyDocOp, fieldPOST]
      split_ifs with h1 h2 h3
      · exact hm
      · exact hm
      · exact hm
      · exact hm
  | sign req previewExists stampOk signedPdfUrl =>
      simp only [applyDocOp, signPOST]
      split_ifs with h1 h2 h3 h4 h5 h6 h7
      · exact hm
      · exact hm
      · exact hm
      · exact hm
      · exact hm
      · exact hm
      · exact hm
      · simp [signedRefInv]
  | signFailure msg =>
      have hns : m.status ≠ .signed := hfail rfl
      have hnone : m.signedPdfPath = none := by
        by_contra hsome
        exact hns (hm.mp hsome)
      simp [applyDocOp, signCatch, signedRefInv, hnone]
  | clear =>
      simp [applyDocOp, clearActiveDocument, signedRefInv, DEFAULT_META]

/-- Witness for C4 (amended): the upload failure path applied to the
converted record. -/
theorem signedRefInv_preserved_witness :
    signedRefInv DEFAULT_META ∧
      signedRefInv (applyDocOp convertedMeta (.uploadFailure "Upload failed")) :=
  signedRefInv_preserved convertedMeta (.uploadFailure "Upload failed")
    (by simp [signedRefInv, convertedMeta])
    (fun _ => by simp [convertedMeta])

/-! ### Claim C9 -/

/-- C9: whenever the stored status is `signed` and `signedPdfPath` is
non-null, a download request with `type=preview` serves the bytes of the
signed artifact (the `active/signed.pdf` blob); the preview artifact
(`active/preview.pdf`) is served for `type=preview` only while the status
is not `signed`. -/
theorem download_preview_serves_signed :
    (∀ store : DocumentMeta,
        store.status = .signed → store.signedPdfPath ≠ none →
          downloadGET .preview store = .ok "active/signed.pdf") ∧
      ∀ store : DocumentMeta,
        downloadGET .preview store = .ok "active/preview.pdf" →
          store.status ≠ .signed := by
  constructor
  · intro store hs hp
    cases hpath : store.signedPdfPath with
    | none => exact absurd hpath hp
    | some p => simp [downloadGET, hs, hpath]
  · intro store hok hs
    cases hpath : store.signedPdfPath <;>
      cases hq : store.previewPdfPath <;>
        simp [downloadGET, hs, hpath, hq] at hok

/-- Witness for C9 at the reachable signed record. -/
theorem download_preview_serves_signed_witness :
    downloadGET .preview signedMeta = .ok "active/signed.pdf" :=
  download_preview_serves_signed.1 signedMeta rfl (by simp [signedMeta])

/-! ### Claim C10 -/

/-- C10: the enforced upload size limit is exactly 5 MB
(`5 * 1024 * 1024` bytes): every file strictly larger than that is
rejected with a validation error without mutating the stored metadata —
with the message claiming the maximum is 15MB when the file is otherwise a
.docx — and no file of size at most 5 MB is ever rejected as too large. -/
theorem upload_size_limit :
    MAX_FILE_SIZE = 5 * 1024 * 1024 ∧
      (∀ (f : UploadFile) (conv : ConvResult) (now savedPath : String)
          (store : DocumentMeta), f.size > 5 * 1024 * 1024 →
          (∃ e : UploadError,
              (uploadPOST (some f) conv now savedPath store).1 = .error e) ∧
            (uploadPOST (some f) conv now savedPath store).2 = store ∧
            (f.nameIsDocx = true →
              (uploadPOST (some f) conv now savedPath store).1 =
                .error .tooLarge)) ∧
      uploadErrorMessage .tooLarge = "File too large. Maximum size is 15MB" ∧
      ∀ (f : UploadFile) (conv : ConvResult) (now savedPath : String)
          (store : DocumentMeta), f.size ≤ 5 * 1024 * 1024 →
          (uploadPOST (some f) conv now savedPath store).1 ≠
            .error .tooLarge := by
  refine ⟨rfl, ?_, rfl, ?_⟩
  · intro f conv now savedPath store hsize
    simp only [uploadPOST]
    split_ifs with h1 h2 h3 h4
    · refine ⟨⟨_, rfl⟩, rfl, fun hd => ?_⟩
      rw [hd] at h1
      exact absurd h1 (by simp)
    · exact ⟨⟨_, rfl⟩, rfl, fun _ => rfl⟩
    · exact absurd hsize h2
    · exact absurd hsize h2
    · exact absurd hsize h2
  · intro f conv now savedPath store hle
    simp only [uploadPOST]
    split_ifs with h1 h2 h3 h4
    · simp
    · exact absurd h2 (by simp only [MAX_FILE_SIZE]; omega)
    · simp
    · simp
    · simp

/-- Witness for C10: a valid 5MB+1 .docx upload is rejected as too large,
leaving the empty store unchanged. -/
theorem upload_size_limit_witness :
    (uploadPOST (some { nameIsDocx := true, size := 5 * 1024 * 1024 + 1, mimeIsDocx := true })
        { success := true, pdfPath := some "active/preview.pdf", err := none }
        "2026-01-01T00:00:00.000Z" "active/original.docx" DEFAULT_META).1 =
      .error .tooLarge ∧
      (uploadPOST (some { nameIsDocx := true, size := 5 * 1024 * 1024 + 1, mimeIsDocx := true })
        { success := true, pdfPath := some "active/preview.pdf", err := none }
        "2026-01-01T00:00:00.000Z" "active/original.docx" DEFAULT_META).2 =
      DEFAULT_META :=
  ⟨(upload_size_limit.2.1
      { nameIsDocx := true, size := 5 * 1024 * 1024 + 1, mimeIsDocx := true }
      { success := true, pdfPath := some "active/preview.pdf", err := none }
      "2026-01-01T00:00:00.000Z" "active/original.docx" DEFAULT_META
      (by norm_num)).2.2 rfl,
    (upload_size_limit.2.1
      { nameIsDocx := true, size := 5 * 1024 * 1024 + 1, mimeIsDocx := true }
      { success := true, pdfPath := some "active/preview.pdf", err := none }
      "2026-01-01T00:00:00.000Z" "active/original.docx" DEFAULT_META
      (by norm_num)).2.1⟩

end Tritone
